import Mathlib

/-!
Shallow embedding of the creational-pattern scripts in
`src/creational_patterns/` (Factory, Singleton/Borg, Builder,
Abstract Factory) and verification of the specification's claims
about them.

Conventions of the embedding:
* Python objects become Lean structures; a class hierarchy with
  overridden methods becomes a structure carrying a tag for the
  concrete class, with the method dispatching on the tag.
* A Python method that can raise is embedded with result type
  `Except PyErr _`; a method that cannot raise is a total function.
* `dict.get(k, default)` becomes an association-list lookup with an
  explicit default; a Python `None` result is `Option.none`.
* In-place mutation (`self.x = v; return self`) becomes state passing:
  the method returns the updated structure; object identity is
  tracked by an `oid` field that no method ever changes.
-/

/-- The only exception raised anywhere in the scripts. -/
inductive PyErr where
  | notImplementedError
  deriving DecidableEq, Repr

/-! ## Factory Method — `src/creational_patterns/Factory/factory.py`

First hierarchy (lines 49-83): `Pet` base class whose `speak` raises
`NotImplementedError`; `Dog`/`Cat` subclasses override it;
`DogFactory`/`CatFactory` creators return fixed products. -/

namespace Factory1

/-- Which concrete class a `Pet` instance was created as. -/
inductive PetCls where
  | base   -- a direct `Pet(...)` instance
  | dogC   -- `Dog(...)`
  | catC   -- `Cat(...)`
  deriving DecidableEq, Repr

/-- `Pet.__init__(self, name, breed, age)` — fields of every pet. -/
structure Pet where
  cls : PetCls
  name : String
  breed : String
  age : Nat
  deriving DecidableEq, Repr

/-- `speak` with dynamic dispatch: the base class raises
`NotImplementedError`; `Dog.speak` and `Cat.speak` return their
format strings (factory.py lines 55-65). -/
def Pet.speak (p : Pet) : Except PyErr String :=
  match p.cls with
  | PetCls.base => Except.error PyErr.notImplementedError
  | PetCls.dogC =>
      Except.ok ("woof! I\x27m " ++ p.name ++ ", a " ++ toString p.age ++
        "-year-old " ++ p.breed ++ ".")
  | PetCls.catC =>
      Except.ok ("meow! I\x27m " ++ p.name ++ ", a " ++ toString p.age ++
        "-year-old " ++ p.breed ++ ".")

/-- Which concrete creator class a `PetFactory` instance is. -/
inductive FactoryCls where
  | basePetFactory
  | dogFactory
  | catFactory
  deriving DecidableEq, Repr

/-- `get_pet` with dynamic dispatch: `PetFactory.get_pet` raises
`NotImplementedError`; `DogFactory.get_pet` returns
`Dog("Jimmy", "Golden Retriever", 2)`; `CatFactory.get_pet` returns
`Cat("Tom", "Persian", 3)` (factory.py lines 68-83). -/
def get_pet (f : FactoryCls) : Except PyErr Pet :=
  match f with
  | FactoryCls.basePetFactory => Except.error PyErr.notImplementedError
  | FactoryCls.dogFactory =>
      Except.ok { cls := PetCls.dogC, name := "Jimmy",
                  breed := "Golden Retriever", age := 2 }
  | FactoryCls.catFactory =>
      Except.ok { cls := PetCls.catC, name := "Tom",
                  breed := "Persian", age := 3 }

end Factory1

/-! Second variant (factory.py lines 99-121): standalone `Dog`/`Cat`
classes holding only a name, and a dict-based `get_pet` returning
`pets.get(pet, None)`. -/

namespace Factory2

/-- A product of the dict-based factory: `Dog(name)` or `Cat(name)`. -/
inductive SimplePet where
  | dog (name : String)
  | cat (name : String)
  deriving DecidableEq, Repr

/-- `speak`: `Dog.speak` returns `"woof!"`, `Cat.speak` returns
`"Meow!"` (factory.py lines 103-111). Neither can raise. -/
def SimplePet.speak : SimplePet → String
  | SimplePet.dog _ => "woof!"
  | SimplePet.cat _ => "Meow!"

/-- The registry literal built inside `get_pet`:
`{"dog": Dog("Jimmy"), "cat": Cat("Tom")}` (factory.py line 114). -/
def pets : List (String × SimplePet) :=
  [("dog", SimplePet.dog "Jimmy"), ("cat", SimplePet.cat "Tom")]

/-- `get_pet(pet='dog')` returns `pets.get(pet, None)`
(factory.py lines 113-115); a Python `None` result is `Option.none`.
The function is total: it cannot raise. -/
def get_pet (pet : String) : Option SimplePet :=
  pets.lookup pet

end Factory2

/-! Third variant (factory.py lines 126-145): a single `Pet` class
with a `sound`, and a `get_pet` whose dict lookup defaults to the
sentinel `Pet("Unknown", "Silent")`. -/

namespace Factory3

/-- `Pet.__init__(self, name, sound)` (factory.py lines 126-129). -/
structure Pet where
  name : String
  sound : String
  deriving DecidableEq, Repr

/-- `speak` returns the stored sound (factory.py lines 131-132). -/
def Pet.speak (p : Pet) : String := p.sound

/-- The registry literal built inside `get_pet` (factory.py 135-138). -/
def pets : List (String × Pet) :=
  [("dog", { name := "Jimmy", sound := "woof!" }),
   ("cat", { name := "Tom", sound := "Meow!" })]

/-- `get_pet(pet_type='dog')` returns
`pets.get(pet_type, Pet("Unknown", "Silent"))` (factory.py 134-139):
total, never raises, synthesizes the sentinel on a miss. -/
def get_pet (pet_type : String) : Pet :=
  (pets.lookup pet_type).getD { name := "Unknown", sound := "Silent" }

end Factory3

/-! ## Singleton — `src/creational_patterns/Singleton_Pattern/singleton_pattern.py`

`Singleton.__new__` (lines 22-28): a class attribute `_instance`
starts as `None`; the first call allocates a fresh object, stores it
and returns it; every later call returns the stored object without
allocating. We model object identities as natural numbers handed out
by a fresh-id counter, and count allocations (`super().__new__`
invocations) explicitly. -/

namespace SingletonPat

/-- The process-wide state relevant to `Singleton.__new__`:
the class attribute `_instance` (an object id, or `None`),
the allocator's next fresh id, and how many times
`super().__new__` has run. -/
structure SingState where
  inst : Option Nat
  nextId : Nat
  constructions : Nat
  deriving DecidableEq, Repr

/-- State at module load: `_instance = None`, no allocations yet. -/
def initSingleton : SingState :=
  { inst := Option.none, nextId := 0, constructions := 0 }

/-- `Singleton.__new__` (singleton_pattern.py lines 25-28):
`if not cls._instance: cls._instance = super().__new__(cls)`,
then `return cls._instance`. Returns the id of the returned object
together with the updated process state. -/
def Singleton.new (s : SingState) : Nat × SingState :=
  match s.inst with
  | Option.none =>
      (s.nextId,
       { inst := Option.some s.nextId,
         nextId := s.nextId + 1,
         constructions := s.constructions + 1 })
  | Option.some i => (i, s)

/-! The Borg pattern (lines 38-58): `Borg._shared_state` is one
module-level dict; `Borg.__init__` aliases `self.__dict__` to it, so
every instance's attribute view IS the shared dict.
`Singleton1.__init__(**kwargs)` additionally does
`self._shared_state.update(kwargs)`. We model the shared dict as a
function `String → Option Int` (attribute name to value), `kwargs`
as an association list applied left to right as `dict.update` does,
and instance identities as fresh ids. -/

/-- `dict.update`: apply the key/value pairs of `u` to `d` in order;
a later pair for the same key overwrites an earlier one. -/
def dictUpdate (d : String → Option Int) (u : List (String × Int)) :
    String → Option Int :=
  u.foldl (fun acc kv => fun k => if k = kv.1 then Option.some kv.2 else acc k) d

/-- The process-wide state of the Borg example: the single shared
state dict and the allocator's next fresh id. -/
structure BorgWorld where
  shared : String → Option Int
  nextId : Nat

/-- State at module load: `Borg._shared_state = {}`. -/
def initBorg : BorgWorld :=
  { shared := fun _ => Option.none, nextId := 0 }

/-- `Singleton1(**kwargs)` (singleton_pattern.py lines 44-47):
allocates a new instance object, aliases its `__dict__` to the
shared dict, then merges `kwargs` into the shared dict. Returns the
new instance's id and the updated world. -/
def Singleton1.new (w : BorgWorld) (kwargs : List (String × Int)) :
    Nat × BorgWorld :=
  (w.nextId, { shared := dictUpdate w.shared kwargs, nextId := w.nextId + 1 })

/-- The attribute view of any Borg instance: because
`self.__dict__ = self._shared_state`, every instance observes exactly
the shared dict, whatever its identity. -/
def Borg.view (w : BorgWorld) (_oid : Nat) : String → Option Int :=
  w.shared

/-- The last value bound to `k` in an update list `u`, if any —
what the key maps to after all pairs of `u` are applied in order. -/
def lookupLast : List (String × Int) → String → Option Int
  | [], _ => Option.none
  | kv :: rest, k =>
      match lookupLast rest k with
      | Option.some v => Option.some v
      | Option.none => if k = kv.1 then Option.some kv.2 else Option.none

end SingletonPat

/-! ## Builder — `src/creational_patterns/Builder/builder.py`

`House` (lines 24-30) is the product; `HouseBuilder` (lines 37-54)
holds the three required fields fixed at construction, two optional
Boolean fields defaulting to `False`, one step method per optional
field (each sets its field in place and returns `self`), and
`build()` which returns a `House` from the current fields. The
builder's Python identity is tracked by `oid`, which no method
changes. `structure` is a Lean keyword, so that field is `structure_`. -/

namespace Builder

/-- `House.__init__` fields (builder.py lines 24-30). -/
structure House where
  foundation : String
  structure_ : String
  roof : String
  has_garage : Bool
  has_swimming_pool : Bool
  deriving DecidableEq, Repr

/-- `HouseBuilder` instance state (builder.py lines 37-43), plus the
object's identity `oid`. -/
structure HouseBuilder where
  oid : Nat
  foundation : String
  structure_ : String
  roof : String
  has_garage : Bool
  has_swimming_pool : Bool
  deriving DecidableEq, Repr

/-- `HouseBuilder.__init__(foundation, structure, roof)`: required
fields set up front, both optional flags start `False`. -/
def houseBuilderInit (oid : Nat) (foundation structure_ roof : String) :
    HouseBuilder :=
  { oid := oid, foundation := foundation, structure_ := structure_,
    roof := roof, has_garage := false, has_swimming_pool := false }

/-- `add_garage(self, has_garage)`: sets the one field and returns
`self` (builder.py lines 45-47). -/
def HouseBuilder.add_garage (b : HouseBuilder) (has_garage : Bool) :
    HouseBuilder :=
  { b with has_garage := has_garage }

/-- `add_swimming_pool(self, has_swimming_pool)`: sets the one field
and returns `self` (builder.py lines 49-51). -/
def HouseBuilder.add_swimming_pool (b : HouseBuilder)
    (has_swimming_pool : Bool) : HouseBuilder :=
  { b with has_swimming_pool := has_swimming_pool }

/-- `build(self)`: returns `House(...)` from the current fields
(builder.py lines 53-54). It does not mutate the builder and cannot
raise; the builder has no terminal state in the source. -/
def HouseBuilder.build (b : HouseBuilder) : House :=
  { foundation := b.foundation, structure_ := b.structure_,
    roof := b.roof, has_garage := b.has_garage,
    has_swimming_pool := b.has_swimming_pool }

end Builder

/-! ## Abstract Factory — `src/creational_patterns/Abstract_Factory/abstract__factory.py`

`PetFactory` (lines 59-64) is the abstract factory whose
`create_dog`/`create_cat` raise `NotImplementedError`;
`FriendlyPetFactory` and `GuardPetFactory` (lines 67-79) return fixed
concrete products; `Dog`/`Cat` (lines 82-98) are abstract products
whose `speak` raises; the four concrete products (lines 101-115)
override `speak`. The client `get_pet(factory)` (lines 118-121)
creates one dog and one cat from the same factory. -/

namespace AF

/-- The concrete (or abstract) class of a pet product instance. -/
inductive PetTag where
  | baseDog       -- a direct `Dog(...)` instance
  | baseCat       -- a direct `Cat(...)` instance
  | friendlyDog
  | guardDog
  | friendlyCat
  | guardCat
  deriving DecidableEq, Repr

/-- A pet product: its concrete class plus the `__init__` fields
shared by `Dog` and `Cat` (abstract__factory.py lines 82-98). -/
structure PetObj where
  tag : PetTag
  name : String
  breed : String
  age : Nat
  deriving DecidableEq, Repr

/-- `speak` with dynamic dispatch: the abstract `Dog.speak` and
`Cat.speak` raise `NotImplementedError`; each concrete product
returns its format string (abstract__factory.py lines 88-115). -/
def PetObj.speak (p : PetObj) : Except PyErr String :=
  match p.tag with
  | PetTag.baseDog => Except.error PyErr.notImplementedError
  | PetTag.baseCat => Except.error PyErr.notImplementedError
  | PetTag.friendlyDog =>
      Except.ok ("woof, I love you! I\x27m " ++ p.name ++ ", a " ++
        toString p.age ++ "-year-old " ++ p.breed ++ ".")
  | PetTag.guardDog =>
      Except.ok ("woof, stay back! I\x27m " ++ p.name ++ ", a " ++
        toString p.age ++ "-year-old " ++ p.breed ++ ".")
  | PetTag.friendlyCat =>
      Except.ok ("meow, purr. I\x27m " ++ p.name ++ ", a " ++
        toString p.age ++ "-year-old " ++ p.breed ++ ".")
  | PetTag.guardCat =>
      Except.ok ("meow, beware! I\x27m " ++ p.name ++ ", a " ++
        toString p.age ++ "-year-old " ++ p.breed ++ ".")

/-- The concrete (or abstract) class of a factory instance. -/
inductive FactoryCls where
  | basePetFactory
  | friendlyPetFactory
  | guardPetFactory
  deriving DecidableEq, Repr

/-- `create_dog` with dynamic dispatch: the abstract factory raises;
`FriendlyPetFactory` returns `FriendlyDog("Jimmy", "Golden
Retriever", 2)`; `GuardPetFactory` returns `GuardDog("Rex", "German
Shepherd", 4)` (abstract__factory.py lines 60-76). -/
def create_dog (f : FactoryCls) : Except PyErr PetObj :=
  match f with
  | FactoryCls.basePetFactory => Except.error PyErr.notImplementedError
  | FactoryCls.friendlyPetFactory =>
      Except.ok { tag := PetTag.friendlyDog, name := "Jimmy",
                  breed := "Golden Retriever", age := 2 }
  | FactoryCls.guardPetFactory =>
      Except.ok { tag := PetTag.guardDog, name := "Rex",
                  breed := "German Shepherd", age := 4 }

/-- `create_cat` with dynamic dispatch: the abstract factory raises;
`FriendlyPetFactory` returns `FriendlyCat("Tom", "Persian", 3)`;
`GuardPetFactory` returns `GuardCat("Whiskers", "Siamese", 5)`
(abstract__factory.py lines 63-79). -/
def create_cat (f : FactoryCls) : Except PyErr PetObj :=
  match f with
  | FactoryCls.basePetFactory => Except.error PyErr.notImplementedError
  | FactoryCls.friendlyPetFactory =>
      Except.ok { tag := PetTag.friendlyCat, name := "Tom",
                  breed := "Persian", age := 3 }
  | FactoryCls.guardPetFactory =>
      Except.ok { tag := PetTag.guardCat, name := "Whiskers",
                  breed := "Siamese", age := 5 }

/-- The client `get_pet(factory)` (abstract__factory.py lines
118-121): creates one dog and one cat from the given factory and
returns the pair. -/
def get_pet (f : FactoryCls) : Except PyErr (PetObj × PetObj) := do
  let dog ← create_dog f
  let cat ← create_cat f
  return (dog, cat)

/-- A product family, distinguishing the two concrete factories. -/
inductive Family where
  | friendly
  | guard
  deriving DecidableEq, Repr

/-- The family a concrete product class belongs to; abstract product
classes belong to none. -/
def tagFamily : PetTag → Option Family
  | PetTag.baseDog => Option.none
  | PetTag.baseCat => Option.none
  | PetTag.friendlyDog => Option.some Family.friendly
  | PetTag.friendlyCat => Option.some Family.friendly
  | PetTag.guardDog => Option.some Family.guard
  | PetTag.guardCat => Option.some Family.guard

/-- The family a concrete factory class serves; the abstract factory
serves none. -/
def factoryFamily : FactoryCls → Option Family
  | FactoryCls.basePetFactory => Option.none
  | FactoryCls.friendlyPetFactory => Option.some Family.friendly
  | FactoryCls.guardPetFactory => Option.some Family.guard

end AF

/-- `true` exactly when an embedded call returned normally rather
than raising. -/
def isOkE {α : Type} : Except PyErr α → Bool
  | Except.ok _ => true
  | Except.error _ => false

/-! ## Helper lemmas -/

/-- Looking up a key other than `"dog"` and `"cat"` misses both
registry literals: the dict-based `get_pet` returns `None` and the
sentinel variant returns `Pet("Unknown", "Silent")`. -/
lemma lookup_missing (k : String) (h1 : k ≠ "dog") (h2 : k ≠ "cat") :
    Factory2.get_pet k = Option.none ∧
    Factory3.get_pet k = { name := "Unknown", sound := "Silent" } := by
  have hd : (k == "dog") = false := beq_eq_false_iff_ne.mpr h1
  have hc : (k == "cat") = false := beq_eq_false_iff_ne.mpr h2
  constructor
  · simp [Factory2.get_pet, Factory2.pets, List.lookup, hd, hc]
  · simp [Factory3.get_pet, Factory3.pets, List.lookup, hd, hc]

/-- `dict.update` semantics: after `dictUpdate d u`, a key maps to
the last value bound to it in `u` if `u` mentions it, and otherwise
to its value in `d`. -/
lemma dictUpdate_eq_lookupLast (u : List (String × Int))
    (d : String → Option Int) (k : String) :
    SingletonPat.dictUpdate d u k =
      match SingletonPat.lookupLast u k with
      | Option.some v => Option.some v
      | Option.none => d k := by
  induction u generalizing d with
  | nil => simp [SingletonPat.dictUpdate, SingletonPat.lookupLast]
  | cons kv rest ih =>
      have hstep : SingletonPat.dictUpdate d (kv :: rest) k =
          SingletonPat.dictUpdate
            (fun j => if j = kv.1 then Option.some kv.2 else d j) rest k := rfl
      rw [hstep, ih]
      cases hrest : SingletonPat.lookupLast rest k with
      | some v => simp [SingletonPat.lookupLast, hrest]
      | none =>
          by_cases hk : k = kv.1
          · subst hk
            simp [SingletonPat.lookupLast, hrest]
          · simp [SingletonPat.lookupLast, hrest, hk]

/-! ## Claims -/

/-- C1: for every key `k` registered with a constructed product `c`
in the dict-based factory's registry, `get_pet k` returns exactly
that product — `"dog"` resolves to `Dog("Jimmy")` and `"cat"` to
`Cat("Tom")`; likewise the factory-method creators return exactly
`Dog("Jimmy", "Golden Retriever", 2)` and `Cat("Tom", "Persian", 3)`. -/
theorem factory_register_resolve (k : String) (c : Factory2.SimplePet)
    (h : (k, c) ∈ Factory2.pets) :
    Factory2.get_pet k = Option.some c ∧
    Factory1.get_pet Factory1.FactoryCls.dogFactory =
      Except.ok { cls := Factory1.PetCls.dogC, name := "Jimmy",
                  breed := "Golden Retriever", age := 2 } ∧
    Factory1.get_pet Factory1.FactoryCls.catFactory =
      Except.ok { cls := Factory1.PetCls.catC, name := "Tom",
                  breed := "Persian", age := 3 } := by
  refine ⟨?_, rfl, rfl⟩
  simp only [Factory2.pets, List.mem_cons, List.not_mem_nil, or_false] at h
  rcases h with h | h <;>
    · rw [Prod.mk.injEq] at h
      rcases h with ⟨hk, hc⟩
      subst hk
      subst hc
      rfl

/-- C1 witness: resolving the registered key `"cat"` returns the
registered `Cat("Tom")`. -/
theorem factory_register_resolve_witness :
    Factory2.get_pet "cat" = Option.some (Factory2.SimplePet.cat "Tom") :=
  (factory_register_resolve "cat" (Factory2.SimplePet.cat "Tom")
    (by decide)).1

/-- C2 counterexample: resolving the unregistered key `"bird"` does
not fail — the dict-based `get_pet` returns `None` (`Option.none`),
and the sentinel variant synthesizes the fallback product
`Pet("Unknown", "Silent")` itself, contradicting both the claimed
`UnknownKeyError` and the claim that no fallback is synthesized. -/
theorem resolve_missing_raises_cex :
    Factory2.get_pet "bird" = Option.none ∧
    Factory3.get_pet "bird" = { name := "Unknown", sound := "Silent" } := by
  exact ⟨rfl, rfl⟩

/-- C2 amended: resolving any unregistered key never raises — the
dict-based `get_pet` returns `None`, and the default-sentinel
variant returns the fallback product `Pet("Unknown", "Silent")`
synthesized by `get_pet` itself. -/
theorem resolve_missing_no_raise (k : String)
    (h1 : k ≠ "dog") (h2 : k ≠ "cat") :
    Factory2.get_pet k = Option.none ∧
    Factory3.get_pet k = { name := "Unknown", sound := "Silent" } :=
  lookup_missing k h1 h2

/-- C2 amended witness: the unregistered key `"hamster"`. -/
theorem resolve_missing_no_raise_witness :
    Factory2.get_pet "hamster" = Option.none ∧
    Factory3.get_pet "hamster" = { name := "Unknown", sound := "Silent" } :=
  resolve_missing_no_raise "hamster" (by decide) (by decide)

/-- C10: for every key other than `"dog"` and `"cat"`, the
dict-based `get_pet` returns `None` without raising, and the
default-sentinel `get_pet` returns a `Pet` named `"Unknown"` whose
`speak()` returns `"Silent"`; both embedded lookups are total, so
neither can raise on a missing key. -/
theorem factory_miss_default (k : String)
    (h1 : k ≠ "dog") (h2 : k ≠ "cat") :
    Factory2.get_pet k = Option.none ∧
    (Factory3.get_pet k).name = "Unknown" ∧
    (Factory3.get_pet k).speak = "Silent" := by
  rcases lookup_missing k h1 h2 with ⟨hA, hB⟩
  exact ⟨hA, by rw [hB], by rw [hB]; rfl⟩

/-- C10 witness: the missing key `"fish"`. -/
theorem factory_miss_default_witness :
    Factory2.get_pet "fish" = Option.none ∧
    (Factory3.get_pet "fish").name = "Unknown" ∧
    (Factory3.get_pet "fish").speak = "Silent" :=
  factory_miss_default "fish" (by decide) (by decide)

/-- C3: identity-sharing singleton. From any state with an empty
slot, the first `Singleton()` call allocates, stores the result in
`_instance` and bumps the construction count; from any state with a
populated slot, `Singleton()` returns exactly the stored object and
changes nothing (so the constructor is never re-invoked); hence two
successive calls return the same object identity and the second call
performs no allocation. -/
theorem singleton_identity_sharing (s0 : SingletonPat.SingState)
    (hinit : s0.inst = Option.none) :
    ((SingletonPat.Singleton.new s0).2.inst =
       Option.some (SingletonPat.Singleton.new s0).1 ∧
     (SingletonPat.Singleton.new s0).2.constructions =
       s0.constructions + 1) ∧
    (∀ (s : SingletonPat.SingState) (i : Nat), s.inst = Option.some i →
       SingletonPat.Singleton.new s = (i, s)) ∧
    ((SingletonPat.Singleton.new
        (SingletonPat.Singleton.new s0).2).1 =
       (SingletonPat.Singleton.new s0).1 ∧
     (SingletonPat.Singleton.new
        (SingletonPat.Singleton.new s0).2).2.constructions =
       s0.constructions + 1) := by
  have hstep : ∀ (s : SingletonPat.SingState) (i : Nat),
      s.inst = Option.some i → SingletonPat.Singleton.new s = (i, s) := by
    intro s i h
    simp [SingletonPat.Singleton.new, h]
  have hfirst :
      SingletonPat.Singleton.new s0 =
        (s0.nextId,
         { inst := Option.some s0.nextId, nextId := s0.nextId + 1,
           constructions := s0.constructions + 1 }) := by
    simp [SingletonPat.Singleton.new, hinit]
  refine ⟨⟨?_, ?_⟩, hstep, ?_, ?_⟩
  · rw [hfirst]
  · rw [hfirst]
  · rw [hstep (SingletonPat.Singleton.new s0).2
        (SingletonPat.Singleton.new s0).1 (by rw [hfirst])]
  · rw [hstep (SingletonPat.Singleton.new s0).2
        (SingletonPat.Singleton.new s0).1 (by rw [hfirst])]
    rw [hfirst]

/-- C3 witness: from the module-load state, two successive
`Singleton()` calls return the same object id and only one
allocation ever happens. -/
theorem singleton_identity_sharing_witness :
    (SingletonPat.Singleton.new
       (SingletonPat.Singleton.new SingletonPat.initSingleton).2).1 =
      (SingletonPat.Singleton.new SingletonPat.initSingleton).1 ∧
    (SingletonPat.Singleton.new
       (SingletonPat.Singleton.new SingletonPat.initSingleton).2).2.constructions =
      SingletonPat.initSingleton.constructions + 1 :=
  (singleton_identity_sharing SingletonPat.initSingleton rfl).2.2

/-- C4: state-sharing (Borg) singleton. Starting from the
module-load world, constructing `Singleton1(**F1)` and then
`Singleton1(**F2)` yields two distinct instance objects, yet every
instance (whatever its identity) observes the same attribute view:
the union of `F1` and `F2` in which a key bound in `F2` takes its
last `F2` value, overriding `F1`; any update is immediately visible
through all instances because each instance's view is the one shared
dict. -/
theorem borg_state_sharing (F1 F2 : List (String × Int)) :
    (SingletonPat.Singleton1.new SingletonPat.initBorg F1).1 ≠
      (SingletonPat.Singleton1.new
        (SingletonPat.Singleton1.new SingletonPat.initBorg F1).2 F2).1 ∧
    (∀ (oid : Nat) (k : String),
       SingletonPat.Borg.view
         (SingletonPat.Singleton1.new
           (SingletonPat.Singleton1.new SingletonPat.initBorg F1).2 F2).2
         oid k =
       match SingletonPat.lookupLast F2 k with
       | Option.some v => Option.some v
       | Option.none => SingletonPat.lookupLast F1 k) := by
  constructor
  · simp [SingletonPat.Singleton1.new, SingletonPat.initBorg]
  · intro oid k
    show SingletonPat.dictUpdate
        (SingletonPat.dictUpdate (fun _ => Option.none) F1) F2 k = _
    rw [dictUpdate_eq_lookupLast F2 _ k]
    cases SingletonPat.lookupLast F2 k with
    | some v => rfl
    | none =>
        rw [dictUpdate_eq_lookupLast F1 _ k]
        cases SingletonPat.lookupLast F1 k with
        | some v => rfl
        | none => rfl

/-- C5: builder ordering and last-write-wins.
`HouseBuilder("concrete", "wood",
"shingles").add_garage(True).add_swimming_pool(True).build()` yields
a `House` with both options `True`; for every builder, writing
`add_garage(False)` after `add_garage(True)` and then building
yields `has_garage = False` — the later write to the same optional
field fully replaces the earlier one, leaving everything else as if
only the later write had happened. -/
theorem builder_last_write_wins :
    (∀ oid : Nat,
      ((((Builder.houseBuilderInit oid "concrete" "wood"
          "shingles").add_garage true).add_swimming_pool true).build =
        { foundation := "concrete", structure_ := "wood",
          roof := "shingles", has_garage := true,
          has_swimming_pool := true })) ∧
    (∀ b : Builder.HouseBuilder,
      ((b.add_garage true).add_garage false).build.has_garage = false) ∧
    (∀ (b : Builder.HouseBuilder) (v w : Bool),
      ((b.add_garage v).add_garage w).build = (b.add_garage w).build ∧
      ((b.add_swimming_pool v).add_swimming_pool w).build =
        (b.add_swimming_pool w).build) :=
  ⟨fun _ => rfl, fun _ => rfl, fun _ _ _ => ⟨rfl, rfl⟩⟩

/-- C6 counterexample: the builder has no Finalized state. With
`b = HouseBuilder("concrete", "wood", "shingles").add_garage(True)`,
after `b.build()` has returned a `House`, the further step call
`b.add_swimming_pool(True)` and a second `b.build()` both succeed
(the embedded methods are total — the source has no raise site and
no state flag), returning an updated `House` instead of failing
with `BuilderFinalizedError`. -/
theorem builder_finalization_cex :
    ((Builder.houseBuilderInit 0 "concrete" "wood"
        "shingles").add_garage true).build =
      { foundation := "concrete", structure_ := "wood",
        roof := "shingles", has_garage := true,
        has_swimming_pool := false } ∧
    (((Builder.houseBuilderInit 0 "concrete" "wood"
        "shingles").add_garage true).add_swimming_pool true).build =
      { foundation := "concrete", structure_ := "wood",
        roof := "shingles", has_garage := true,
        has_swimming_pool := true } ∧
    (((Builder.houseBuilderInit 0 "concrete" "wood"
        "shingles").add_garage true).build =
     ((Builder.houseBuilderInit 0 "concrete" "wood"
        "shingles").add_garage true).build) :=
  ⟨rfl, rfl, rfl⟩

/-- C6 amended: `build()` produces a `House` snapshot of all builder
fields at that instant, but does not finalize the builder: it leaves
the builder state untouched, so step methods and `build()` remain
callable afterwards and a later `build()` reflects the later
writes — no call ever fails. -/
theorem builder_build_snapshot_not_terminal (b : Builder.HouseBuilder) :
    b.build =
      { foundation := b.foundation, structure_ := b.structure_,
        roof := b.roof, has_garage := b.has_garage,
        has_swimming_pool := b.has_swimming_pool } ∧
    (∀ v : Bool, (b.add_garage v).build =
      { foundation := b.foundation, structure_ := b.structure_,
        roof := b.roof, has_garage := v,
        has_swimming_pool := b.has_swimming_pool }) ∧
    (∀ v : Bool, (b.add_swimming_pool v).build =
      { foundation := b.foundation, structure_ := b.structure_,
        roof := b.roof, has_garage := b.has_garage,
        has_swimming_pool := v }) :=
  ⟨rfl, fun _ => rfl, fun _ => rfl⟩

/-- C9: builder step frame property. `add_garage` writes exactly
`has_garage` and `add_swimming_pool` exactly `has_swimming_pool`;
each leaves the required fields, the other optional field and the
object identity `oid` untouched — the method returns the very
builder object it was called on. -/
theorem builder_step_frame (b : Builder.HouseBuilder) (v : Bool) :
    ((b.add_garage v).oid = b.oid ∧
     (b.add_garage v).foundation = b.foundation ∧
     (b.add_garage v).structure_ = b.structure_ ∧
     (b.add_garage v).roof = b.roof ∧
     (b.add_garage v).has_swimming_pool = b.has_swimming_pool ∧
     (b.add_garage v).has_garage = v) ∧
    ((b.add_swimming_pool v).oid = b.oid ∧
     (b.add_swimming_pool v).foundation = b.foundation ∧
     (b.add_swimming_pool v).structure_ = b.structure_ ∧
     (b.add_swimming_pool v).roof = b.roof ∧
     (b.add_swimming_pool v).has_garage = b.has_garage ∧
     (b.add_swimming_pool v).has_swimming_pool = v) :=
  ⟨⟨rfl, rfl, rfl, rfl, rfl, rfl⟩, ⟨rfl, rfl, rfl, rfl, rfl, rfl⟩⟩

/-- C7: abstract-factory family consistency. For any concrete
factory handle serving family `fam`, every product it successfully
creates — by `create_dog`, by `create_cat`, or through the client
`get_pet` — carries a concrete class belonging to exactly `fam`,
never to the other family; the factory methods are pure, so this
holds for any ordering or number of create calls. -/
theorem abstract_factory_family_consistency (f : AF.FactoryCls)
    (fam : AF.Family) (h : AF.factoryFamily f = Option.some fam) :
    (∀ p : AF.PetObj, AF.create_dog f = Except.ok p →
       AF.tagFamily p.tag = Option.some fam) ∧
    (∀ p : AF.PetObj, AF.create_cat f = Except.ok p →
       AF.tagFamily p.tag = Option.some fam) ∧
    (∀ d c : AF.PetObj, AF.get_pet f = Except.ok (d, c) →
       AF.tagFamily d.tag = Option.some fam ∧
       AF.tagFamily c.tag = Option.some fam) := by
  cases f with
  | basePetFactory => simp [AF.factoryFamily] at h
  | friendlyPetFactory =>
      simp only [AF.factoryFamily, Option.some.injEq] at h
      subst h
      refine ⟨?_, ?_, ?_⟩
      · intro p hp
        simp only [AF.create_dog, Except.ok.injEq] at hp
        subst hp
        rfl
      · intro p hp
        simp only [AF.create_cat, Except.ok.injEq] at hp
        subst hp
        rfl
      · intro d c hp
        injection hp with hpair
        injection hpair with hd hc
        subst hd
        subst hc
        exact ⟨rfl, rfl⟩
  | guardPetFactory =>
      simp only [AF.factoryFamily, Option.some.injEq] at h
      subst h
      refine ⟨?_, ?_, ?_⟩
      · intro p hp
        simp only [AF.create_dog, Except.ok.injEq] at hp
        subst hp
        rfl
      · intro p hp
        simp only [AF.create_cat, Except.ok.injEq] at hp
        subst hp
        rfl
      · intro d c hp
        injection hp with hpair
        injection hpair with hd hc
        subst hd
        subst hc
        exact ⟨rfl, rfl⟩

/-- C7 witness: the guard factory's dog product belongs to the guard
family. -/
theorem abstract_factory_family_consistency_witness :
    AF.tagFamily AF.PetTag.guardDog = Option.some AF.Family.guard :=
  (abstract_factory_family_consistency AF.FactoryCls.guardPetFactory
      AF.Family.guard rfl).1
    { tag := AF.PetTag.guardDog, name := "Rex",
      breed := "German Shepherd", age := 4 } rfl

/-- C8: abstract stub contract. Every behavior operation on a base
class that a concrete variant is meant to override raises
`NotImplementedError` — `Pet.speak` and `PetFactory.get_pet` in the
factory-method script, and `Dog.speak`, `Cat.speak`,
`PetFactory.create_dog`, `PetFactory.create_cat` in the
abstract-factory script — while the override of every concrete
variant returns normally. -/
theorem abstract_stub_contract :
    (∀ (n b : String) (a : Nat),
      Factory1.Pet.speak
        { cls := Factory1.PetCls.base, name := n, breed := b, age := a } =
        Except.error PyErr.notImplementedError) ∧
    Factory1.get_pet Factory1.FactoryCls.basePetFactory =
      Except.error PyErr.notImplementedError ∧
    (∀ (n b : String) (a : Nat),
      AF.PetObj.speak
        { tag := AF.PetTag.baseDog, name := n, breed := b, age := a } =
        Except.error PyErr.notImplementedError ∧
      AF.PetObj.speak
        { tag := AF.PetTag.baseCat, name := n, breed := b, age := a } =
        Except.error PyErr.notImplementedError) ∧
    AF.create_dog AF.FactoryCls.basePetFactory =
      Except.error PyErr.notImplementedError ∧
    AF.create_cat AF.FactoryCls.basePetFactory =
      Except.error PyErr.notImplementedError ∧
    (∀ p : Factory1.Pet, p.cls ≠ Factory1.PetCls.base →
      isOkE p.speak = true) ∧
    (∀ p : AF.PetObj, p.tag ≠ AF.PetTag.baseDog →
      p.tag ≠ AF.PetTag.baseCat → isOkE p.speak = true) ∧
    (∀ f : Factory1.FactoryCls, f ≠ Factory1.FactoryCls.basePetFactory →
      isOkE (Factory1.get_pet f) = true) ∧
    (∀ f : AF.FactoryCls, f ≠ AF.FactoryCls.basePetFactory →
      isOkE (AF.create_dog f) = true ∧ isOkE (AF.create_cat f) = true) := by
  refine ⟨fun _ _ _ => rfl, rfl, fun _ _ _ => ⟨rfl, rfl⟩, rfl, rfl,
    ?_, ?_, ?_, ?_⟩
  · intro p hp
    cases hc : p.cls with
    | base => exact absurd hc hp
    | dogC => simp [Factory1.Pet.speak, hc, isOkE]
    | catC => simp [Factory1.Pet.speak, hc, isOkE]
  · intro p hd hc
    cases ht : p.tag <;>
      first
        | exact absurd ht hd
        | exact absurd ht hc
        | simp [AF.PetObj.speak, ht, isOkE]
  · intro f hf
    cases f with
    | basePetFactory => exact absurd rfl hf
    | dogFactory => rfl
    | catFactory => rfl
  · intro f hf
    cases f with
    | basePetFactory => exact absurd rfl hf
    | friendlyPetFactory => exact ⟨rfl, rfl⟩
    | guardPetFactory => exact ⟨rfl, rfl⟩

/-- C8 witness: the base `Pet.speak` stub raises, and the concrete
`Dog("Jimmy", "Golden Retriever", 2).speak()` returns normally. -/
theorem abstract_stub_contract_witness :
    Factory1.Pet.speak
      { cls := Factory1.PetCls.base, name := "x", breed := "y", age := 0 } =
      Except.error PyErr.notImplementedError ∧
    isOkE (Factory1.Pet.speak
      { cls := Factory1.PetCls.dogC, name := "Jimmy",
        breed := "Golden Retriever", age := 2 }) = true :=
  ⟨abstract_stub_contract.1 "x" "y" 0,
   abstract_stub_contract.2.2.2.2.2.1
     { cls := Factory1.PetCls.dogC, name := "Jimmy",
       breed := "Golden Retriever", age := 2 } (by decide)⟩
